import Mathlib

/-!
A shallow embedding of the monitor-and-stream core of `src/translator.py`
(the Shinku clipboard translator).  Pure fragments of the Python source are
translated into executable Lean definitions; stateful fragments become
explicit state passing over a coordinator state type.  Line numbers in doc
comments refer to `src/translator.py`.
-/

/-! ## Python string primitives used by the source -/

/-- Whitespace recognised by Python `str.strip()` with no arguments,
restricted to the ASCII range (all inputs in this development are ASCII or
have ASCII-only edges). -/
def is_py_space (c : Char) : Bool :=
  c = ' ' || c = '\t' || c = '\n' || c = '\r' || c = '\x0B' || c = '\x0C'

/-- Python `str.strip()`: drop leading and trailing whitespace. -/
def py_strip (s : String) : String :=
  ⟨((s.data.dropWhile is_py_space).reverse.dropWhile is_py_space).reverse⟩

/-- Python `s.startswith(pre)`. -/
def py_startswith (s pre : String) : Bool :=
  pre.data.isPrefixOf s.data

/-- Python `s[1:]`. -/
def py_tail (s : String) : String :=
  ⟨s.data.drop 1⟩

/-- Helper for `py_split_colon_once` on the character list. -/
def py_split_colon_once_aux : List Char → Option (List Char × List Char)
  | [] => none
  | c :: cs =>
    if c = ':' then some ([], cs)
    else
      match py_split_colon_once_aux cs with
      | none => none
      | some p => some (c :: p.1, p.2)

/-- Python `s.split(":", 1)` as used in line 196: when the string contains a
colon, the text before the first colon and the text after it; `none` when
there is no colon, in which case the source's two-target unpacking raises
`ValueError` (caught by the surrounding `except`). -/
def py_split_colon_once (s : String) : Option (String × String) :=
  match py_split_colon_once_aux s.data with
  | none => none
  | some p => some (⟨p.1⟩, ⟨p.2⟩)

/-- Helper for `py_splitlines` on the character list. -/
def py_splitlines_aux : List Char → List Char → List (List Char)
  | [], cur => [cur.reverse]
  | c :: cs, cur =>
    if c = '\n' then cur.reverse :: py_splitlines_aux cs []
    else py_splitlines_aux cs (c :: cur)

/-- Python `str.splitlines()` modelled on the newline character only.  It
differs from Python in producing a final empty line for empty input or a
trailing newline; such a line is whitespace-only and is skipped by every
consumer below, so the difference is unobservable in this development. -/
def py_splitlines (s : String) : List String :=
  (py_splitlines_aux s.data []).map fun l => ⟨l⟩

/-! ## JSON scalar values and the custom-parameter parser
(`ModelDialog.save_settings`, lines 189-202) -/

/-- The scalar JSON values that can appear as a custom parameter value. -/
inductive JVal where
  | num (n : Int)
  | str (s : String)
  | bool (b : Bool)
  | null
  deriving DecidableEq, Repr

/-- ASCII decimal digit test. -/
def is_ascii_digit (c : Char) : Bool :=
  '0' ≤ c && c ≤ '9'

/-- Decimal value of a digit list (most significant first). -/
def digits_to_nat : List Char → Nat → Nat
  | [], acc => acc
  | c :: cs, acc => digits_to_nat cs (acc * 10 + (c.toNat - '0'.toNat))

/-- Modelled from the Python standard library: `json.loads` restricted to
the scalar literals the settings dialog exercises — decimal integers
(optionally negative), double-quoted strings without escapes, `true`,
`false` and `null`.  On every other input Python's `json.loads` raises;
here that is `none` (the surrounding `except` in the source catches it). -/
def json_loads (s : String) : Option JVal :=
  let cs := s.data
  if s = "true" then some (JVal.bool true)
  else if s = "false" then some (JVal.bool false)
  else if s = "null" then some JVal.null
  else if !cs.isEmpty && cs.all is_ascii_digit then
    some (JVal.num (Int.ofNat (digits_to_nat cs 0)))
  else if cs.head? == some '-' && !(cs.drop 1).isEmpty && (cs.drop 1).all is_ascii_digit then
    some (JVal.num (-(Int.ofNat (digits_to_nat (cs.drop 1) 0))))
  else if decide (2 ≤ cs.length) && cs.head? == some '"' && cs.getLast? == some '"'
          && ((cs.drop 1).dropLast.all fun c => c != '"' && c != '\\') then
    some (JVal.str ⟨(cs.drop 1).dropLast⟩)
  else none

/-- Python dict assignment `d[k] = v` on an insertion-ordered dict:
replace the value of an existing key in place, otherwise append the new
binding at the end. -/
def dict_set (d : List (String × JVal)) (k : String) (v : JVal) : List (String × JVal) :=
  if d.any fun p => p.1 == k then
    d.map fun p => if p.1 == k then (k, v) else p
  else d ++ [(k, v)]

/-- One iteration of the custom-parameter loop in
`ModelDialog.save_settings` (lines 192-201): strip the line; a line not
starting with `-` is not considered at all; otherwise drop the dash, split
at the first colon, strip the key, JSON-decode the stripped value part, and
any failure on the way (no colon, invalid JSON) is caught by the `except`
and the line is ignored. -/
def parse_custom_line (line : String) : Option (String × JVal) :=
  let l := py_strip line
  if py_startswith l "-" then
    match py_split_colon_once (py_tail l) with
    | none => none
    | some kv =>
      match json_loads (py_strip kv.2) with
      | none => none
      | some v => some (py_strip kv.1, v)
  else none

/-- The whole loop of lines 191-201 over an already-split line list,
building the `custom_params` dict from the empty dict. -/
def parse_custom_lines (lines : List String) : List (String × JVal) :=
  lines.foldl
    (fun d line =>
      match parse_custom_line line with
      | some kv => dict_set d kv.1 kv.2
      | none => d)
    []

/-- Custom-parameter parsing in `ModelDialog.save_settings` (lines
190-202): split the text-box contents into lines and run the loop. -/
def save_settings_custom_params (text : String) : List (String × JVal) :=
  parse_custom_lines (py_splitlines text)

/-! ## SourceMonitor (`check_clipboard`, lines 533-542, together with the
emptiness guard at the top of `handle_new_message`, lines 544-546) -/

/-- One poll tick of the clipboard monitor.  `read = none` models a
`PyperclipException`, which the source maps to the empty string.  Returns
the new `previous_clipboard` snapshot together with the changed event
handed past the emptiness guard to the rest of `handle_new_message`, if
any: the source updates the snapshot whenever the read value differs, and
`handle_new_message` returns immediately when the value strips to empty. -/
def check_clipboard (previous_clipboard : String) (read : Option String) :
    String × Option String :=
  let current_clipboard := read.getD ""
  if current_clipboard = previous_clipboard then
    (previous_clipboard, none)
  else
    (current_clipboard,
      if py_strip current_clipboard = "" then none else some current_clipboard)

/-- A run of poll ticks from a given snapshot, collecting the emitted
changed events in order (the clipboard timer fires `check_clipboard` once
per second, line 525). -/
def monitor_run (previous_clipboard : String) (reads : List (Option String)) :
    String × List String :=
  reads.foldl
    (fun st r =>
      let t := check_clipboard st.1 r
      (t.1, st.2 ++ t.2.toList))
    (previous_clipboard, [])

/-! ## StreamingSession (`OpenAIWorker`, lines 17-60) -/

/-- Chat message roles. -/
inductive Role where
  | user
  | assistant
  | system
  deriving DecidableEq, Repr

/-- A chat message: `{"role": ..., "content": ...}`. -/
structure Message where
  role : Role
  content : String
  deriving DecidableEq, Repr

/-- The three signals an `OpenAIWorker` can emit: `token_received`,
`finished` and `error` (lines 19-21). -/
inductive Ev where
  | token (s : String)
  | finished (s : String)
  | error (s : String)
  deriving DecidableEq, Repr

/-- A terminal signal is `finished` or `error`; `token_received` is not. -/
def is_terminal : Ev → Bool
  | Ev.token _ => false
  | Ev.finished _ => true
  | Ev.error _ => true

/-- The payloads of the token (incremental output) events of a trace, in
order. -/
def token_payloads (evs : List Ev) : List String :=
  evs.filterMap fun e =>
    match e with
    | Ev.token s => some s
    | _ => none

/-- Concatenation of a list of strings in order (Python `+=` on strings,
line 54). -/
def concat_all : List String → String
  | [] => ""
  | s :: rest => s ++ concat_all rest

/-- The chunk loop of `OpenAIWorker.run` (lines 50-57): each received chunk
whose delta content is present (`some`) is appended to the accumulated
response and emitted as a `token_received` signal; chunks whose content is
`None` are skipped.  Returns the emitted token events together with the
final accumulated response. -/
def worker_loop (chunks : List (Option String)) (acc : String) : List Ev × String :=
  match chunks with
  | [] => ([], acc)
  | none :: rest => worker_loop rest acc
  | some content :: rest =>
    let t := worker_loop rest (acc ++ content)
    (Ev.token content :: t.1, t.2)

/-- `OpenAIWorker.run` (lines 33-60).  `chunks` are the chunks actually
received from the stream, in receipt order.  When the stream ends normally
(`err = none`) the loop consumes every chunk and `finished(accumulated)` is
emitted; when an exception is raised after the listed chunks were consumed
(`err = some e`, which also covers request-setup failures with
`chunks = []`), `error(str(e))` is emitted instead. -/
def worker_run (chunks : List (Option String)) (err : Option String) : List Ev :=
  match err with
  | none => (worker_loop chunks "").1 ++ [Ev.finished (worker_loop chunks "").2]
  | some e => (worker_loop chunks "").1 ++ [Ev.error e]

/-- The signal trace of a worker killed by `QThread.terminate()` after
consuming `k` chunks — the cancellation path of `handle_new_message`
(lines 556-559) and `clear_history` (lines 636-639).  The signals already
emitted are exactly the tokens for the consumed chunks; the thread dies
inside the loop, so neither `finished` nor `error` is ever emitted: the
`except` clause of `run` never runs for a forced thread kill. -/
def worker_terminated (chunks : List (Option String)) (k : Nat) : List Ev :=
  (worker_loop (chunks.take k) "").1

/-- Line 40 of `OpenAIWorker.run`: the outbound message list, a system
message holding the system prompt prepended to the worker's history
list. -/
def all_messages (system_prompt : String) (msgs : List Message) : List Message :=
  { role := Role.system, content := system_prompt } :: msgs

/-- `OpenAIWorker.__init__` (line 28) stores the caller's message list by
reference — `self.messages = messages` takes no copy — and
`handle_new_message` passes the coordinator's live `self.messages`
(line 566).  A superseding turn appends its user message to that same list
(line 551) before the old worker is even terminated (lines 556-559), so a
worker whose `run` reaches line 40 after such an append builds its request
from the grown list.  This definition is that request. -/
def inflight_request_after_append (system_prompt : String)
    (history_at_start : List Message) (superseding : String) : List Message :=
  all_messages system_prompt (history_at_start ++ [{ role := Role.user, content := superseding }])

/-! ## SessionCoordinator (`TransparentAIAssistant`, lines 322-649) -/

/-- The coordinator state: the conversation history `self.messages`, the
monitor snapshot `self.previous_clipboard`, the text shown in the response
area, and `self.current_worker` — `none` when the slot holds no reference,
`some b` when it references a worker thread whose `isRunning()` is `b`
(the source never nulls the slot when a worker finishes by itself). -/
structure Assistant where
  messages : List Message
  previous_clipboard : String
  response_area : String
  current_worker : Option Bool
  deriving DecidableEq, Repr

/-- The greeting shown at startup (line 408). -/
def greeting : String :=
  "The text from the clipboard will be translated here. If you are just starting out - please setup model api in the menu."

/-- `TransparentAIAssistant.__init__` together with
`setup_clipboard_monitoring` (lines 322-362 and 522-531): empty history,
`previous_clipboard` initialised to the current clipboard value (or `""`
when the read raises), the greeting in the response area, and no worker. -/
def init_assistant (clip : Option String) : Assistant :=
  { messages := []
    previous_clipboard := clip.getD ""
    response_area := greeting
    current_worker := none }

/-- The synchronous part of `handle_new_message` (lines 544-574): return
unchanged on an empty-after-strip message; otherwise append the user
message to the history (the `if not self.messages` reset on lines 548-549
is a no-op), clear the response area, kill any running worker, and start a
fresh running worker into the slot. -/
def handle_new_message_start (st : Assistant) (m : String) : Assistant :=
  if py_strip m = "" then st
  else
    { st with
      messages := st.messages ++ [{ role := Role.user, content := m }]
      response_area := ""
      current_worker := some true }

/-- Delivery of one worker signal to its connected slot (lines 571-573):
`token_received` → `append_token` (insert at the end of the response area,
lines 576-581), `finished` → `finish_response` (append the assistant
message, lines 583-584), `error` → `display_error` (replace the response
area text, lines 586-587). -/
def deliver (st : Assistant) (e : Ev) : Assistant :=
  match e with
  | Ev.token t => { st with response_area := st.response_area ++ t }
  | Ev.finished full =>
    { st with messages := st.messages ++ [{ role := Role.assistant, content := full }] }
  | Ev.error msg => { st with response_area := "Error: " ++ msg }

/-- One complete turn: `handle_new_message` on message `m`, then the
started worker runs against a backend that delivers `chunks` and either
ends normally (`err = none`) or raises (`err = some e`), and each emitted
signal is delivered in order.  When the worker's `run` returns, the thread
is no longer running, while the reference in `current_worker` remains.
Returns the resulting state and the worker's signal trace. -/
def run_turn (st : Assistant) (m : String) (chunks : List (Option String))
    (err : Option String) : Assistant × List Ev :=
  if py_strip m = "" then (st, [])
  else
    let evs := worker_run chunks err
    let st1 := evs.foldl deliver (handle_new_message_start st m)
    ({ st1 with current_worker := some false }, evs)

/-- A sequence of successful turns: each entry is the clipboard message and
the chunks its backend stream delivers before ending normally. -/
def run_success_turns (st : Assistant) (turns : List (String × List (Option String))) :
    Assistant :=
  turns.foldl (fun s t => (run_turn s t.1 t.2 none).1) st

/-- The messages produced by a list of successful turns: user message then
assistant message (the accumulated stream) per turn, in order. -/
def turns_messages : List (String × List (Option String)) → List Message
  | [] => []
  | t :: rest =>
    { role := Role.user, content := t.1 }
      :: { role := Role.assistant, content := concat_all (t.2.filterMap id) }
      :: turns_messages rest

/-- A message list alternating user, assistant, user, assistant, ... -/
def alternates_user_assistant : List Message → Bool
  | [] => true
  | m1 :: m2 :: rest =>
    (m1.role == Role.user && m2.role == Role.assistant) && alternates_user_assistant rest
  | _ :: [] => false

/-- Idle: the worker slot holds no running worker — the guard
`self.current_worker and self.current_worker.isRunning()` (line 557 and
line 636) finds nothing to cancel. -/
def is_idle (st : Assistant) : Bool :=
  match st.current_worker with
  | some true => false
  | _ => true

/-- `TransparentAIAssistant.clear_history` (lines 634-649): kill and await
a running worker and drop its reference — a reference to an
already-finished worker is left in place, since the guard on line 636
checks `isRunning()`; then empty the messages, clear the response area,
and re-read the clipboard into `previous_clipboard` (`""` when the read
raises). -/
def clear_history (st : Assistant) (read : Option String) : Assistant :=
  let st1 :=
    match st.current_worker with
    | some true => { st with current_worker := none }
    | _ => st
  { st1 with
    messages := []
    response_area := ""
    previous_clipboard := read.getD "" }

/-! ## Helper lemmas -/

theorem worker_loop_spec (chunks : List (Option String)) (acc : String) :
    worker_loop chunks acc
      = ((chunks.filterMap id).map Ev.token, acc ++ concat_all (chunks.filterMap id)) := by
  induction chunks generalizing acc with
  | nil => simp [worker_loop, concat_all]
  | cons c rest ih =>
    cases c with
    | none => simpa [worker_loop, List.filterMap_cons] using ih acc
    | some s =>
      simp [worker_loop, List.filterMap_cons, ih, concat_all, String.append_assoc]

theorem worker_run_none_spec (chunks : List (Option String)) :
    worker_run chunks none
      = ((chunks.filterMap id).map Ev.token)
        ++ [Ev.finished (concat_all (chunks.filterMap id))] := by
  simp [worker_run, worker_loop_spec]

theorem worker_run_some_spec (chunks : List (Option String)) (e : String) :
    worker_run chunks (some e)
      = ((chunks.filterMap id).map Ev.token) ++ [Ev.error e] := by
  simp [worker_run, worker_loop_spec]

theorem token_payloads_append_map (l : List String) (rest : List Ev) :
    token_payloads (l.map Ev.token ++ rest) = l ++ token_payloads rest := by
  induction l with
  | nil => rfl
  | cons s t ih =>
    simp only [token_payloads, List.map_cons, List.cons_append, List.filterMap_cons] at ih ⊢
    rw [ih]

theorem countP_terminal_tokens (l : List String) (rest : List Ev) :
    (l.map Ev.token ++ rest).countP is_terminal = rest.countP is_terminal := by
  induction l with
  | nil => rfl
  | cons s t ih =>
    simp [List.countP_cons, is_terminal, ih]

theorem foldl_deliver_tokens (l : List String) (st : Assistant) :
    (l.map Ev.token).foldl deliver st
      = { st with response_area := st.response_area ++ concat_all l } := by
  induction l generalizing st with
  | nil => cases st; simp [concat_all]
  | cons s t ih =>
    cases st with
    | mk ms pc ra cw =>
      simp [deliver, concat_all, ih, String.append_assoc]

theorem run_turn_empty (st : Assistant) (m : String) (hm : py_strip m = "")
    (chunks : List (Option String)) (err : Option String) :
    run_turn st m chunks err = (st, []) := by
  simp [run_turn, hm]

theorem run_turn_success_state (st : Assistant) (m : String) (hm : ¬ py_strip m = "")
    (chunks : List (Option String)) :
    (run_turn st m chunks none).1
      = { messages := st.messages
            ++ [{ role := Role.user, content := m },
                { role := Role.assistant, content := concat_all (chunks.filterMap id) }]
          previous_clipboard := st.previous_clipboard
          response_area := concat_all (chunks.filterMap id)
          current_worker := some false } := by
  cases st with
  | mk ms pc ra cw =>
    simp [run_turn, hm, worker_run_none_spec, handle_new_message_start,
      List.foldl_append, foldl_deliver_tokens, deliver]

theorem run_turn_failure_state (st : Assistant) (m : String) (hm : ¬ py_strip m = "")
    (chunks : List (Option String)) (e : String) :
    (run_turn st m chunks (some e)).1
      = { messages := st.messages ++ [{ role := Role.user, content := m }]
          previous_clipboard := st.previous_clipboard
          response_area := "Error: " ++ e
          current_worker := some false } := by
  cases st with
  | mk ms pc ra cw =>
    simp [run_turn, hm, worker_run_some_spec, handle_new_message_start,
      List.foldl_append, foldl_deliver_tokens, deliver]

theorem run_success_turns_messages (turns : List (String × List (Option String)))
    (h : ∀ t ∈ turns, ¬ py_strip t.1 = "") (st : Assistant) :
    (run_success_turns st turns).messages = st.messages ++ turns_messages turns := by
  induction turns generalizing st with
  | nil => simp [run_success_turns, turns_messages]
  | cons t rest ih =>
    have ht : ¬ py_strip t.1 = "" := h t (List.mem_cons_self t rest)
    have hrest : ∀ u ∈ rest, ¬ py_strip u.1 = "" := fun u hu => h u (List.mem_cons_of_mem t hu)
    show (run_success_turns (run_turn st t.1 t.2 none).1 rest).messages = _
    rw [ih hrest, run_turn_success_state st t.1 ht t.2]
    simp [turns_messages]

theorem turns_messages_alternates (turns : List (String × List (Option String))) :
    alternates_user_assistant (turns_messages turns) = true := by
  induction turns with
  | nil => rfl
  | cons t rest ih => simp [turns_messages, alternates_user_assistant, ih]

theorem turns_messages_length (turns : List (String × List (Option String))) :
    (turns_messages turns).length = 2 * turns.length := by
  induction turns with
  | nil => rfl
  | cons t rest ih => simp [turns_messages, ih]; omega

/-! ## Claim theorems -/

/-- C2 (amended): on every poll tick, a changed(content) event is emitted
iff the value read (a failed read counting as "") differs from the
snapshot and is non-empty after trimming, and the event carries that
value; the snapshot is updated to the read value whenever it differs from
the snapshot — including when the new value is empty after trimming — and
is unchanged on an equal value. -/
theorem C2_tick_characterization (prev : String) (read : Option String) :
    ((check_clipboard prev read).2
        = if read.getD "" ≠ prev ∧ ¬ py_strip (read.getD "") = ""
          then some (read.getD "") else none)
    ∧ ((check_clipboard prev read).1 = if read.getD "" ≠ prev then read.getD "" else prev) := by
  by_cases h1 : read.getD "" = prev
  · simp [check_clipboard, h1]
  · by_cases h2 : py_strip (read.getD "") = ""
    · simp [check_clipboard, h1, h2]
    · simp [check_clipboard, h1, h2]

/-- C2 counterexample: with snapshot "x" and a read of " " (different from
the snapshot but empty after trimming) the tick emits no event, yet the
snapshot does change — refuting the claim that in that case the snapshot
is unchanged. -/
theorem C2_snapshot_counterexample :
    (check_clipboard "x" (some " ")).2 = none
    ∧ ¬ (check_clipboard "x" (some " ")).1 = "x" := by
  decide

/-- C3 (amended): a changed event's content always differs from the
snapshot before its tick and becomes the new snapshot, so two consecutive
poll ticks never both emit a changed event with the same text. -/
theorem C3_no_consecutive_repeat (prev : String) (r1 r2 : Option String) (c : String)
    (h : (check_clipboard prev r1).2 = some c) :
    (check_clipboard prev r1).1 = c ∧ c ≠ prev
      ∧ ¬ (check_clipboard (check_clipboard prev r1).1 r2).2 = some c := by
  by_cases h1 : r1.getD "" = prev
  · simp [check_clipboard, h1] at h
  · by_cases h2 : py_strip (r1.getD "") = ""
    · simp [check_clipboard, h1, h2] at h
    · have hc : c = r1.getD "" := by
        simp [check_clipboard, h1, h2] at h
        exact h.symm
      have hfst : (check_clipboard prev r1).1 = c := by
        simp [check_clipboard, h1, h2, hc]
      refine ⟨hfst, by rw [hc]; exact h1, ?_⟩
      rw [hfst]
      by_cases h3 : r2.getD "" = c
      · simp [check_clipboard, h3]
      · by_cases h4 : py_strip (r2.getD "") = ""
        · simp [check_clipboard, h3, h4]
        · simp [check_clipboard, h3, h4]

theorem C3_no_consecutive_repeat_witness :
    (check_clipboard "A" (some "B")).1 = "B" ∧ ("B" : String) ≠ "A"
      ∧ ¬ (check_clipboard (check_clipboard "A" (some "B")).1 (some "B")).2 = some "B" :=
  C3_no_consecutive_repeat "A" (some "B") (some "B") "B" (by decide)

/-- C3 counterexample: starting from snapshot "A", the reads "B", then a
failed read (treated as empty text), then "B" again produce the changed
events ["B", "B"] — the changed event following changed("B") carries the
same content "B", refuting the claim. -/
theorem C3_repeat_counterexample :
    (monitor_run "A" [some "B", none, some "B"]).2 = ["B", "B"]
    ∧ ¬ List.Chain' (fun a b => ¬ a = b) (monitor_run "A" [some "B", none, some "B"]).2 := by
  constructor
  · decide
  · intro hch
    have : (monitor_run "A" [some "B", none, some "B"]).2 = ["B", "B"] := by decide
    rw [this] at hch
    exact (List.chain'_cons.mp hch).1 rfl

/-- C7 (amended): in the custom-parameter parsing of
ModelDialog.save_settings, a malformed line is skipped individually
without aborting the parsing of subsequent lines; input containing the
malformed line "not-a-valid-line" alongside the valid dash-prefixed entry
"- top_k: 20" yields a parsed custom-parameter map containing only
{top_k: 20}. -/
theorem C7_malformed_skip :
    (∀ pre bad post, parse_custom_line bad = none →
        parse_custom_lines (pre ++ bad :: post) = parse_custom_lines (pre ++ post))
    ∧ save_settings_custom_params "not-a-valid-line\n- top_k: 20"
        = [("top_k", JVal.num 20)] := by
  constructor
  · intro pre bad post h
    unfold parse_custom_lines
    rw [List.foldl_append, List.foldl_append, List.foldl_cons]
    simp only [h]
  · decide

theorem C7_malformed_skip_witness :
    parse_custom_lines ["not-a-valid-line", "- top_k: 20"]
      = parse_custom_lines ["- top_k: 20"]
    ∧ save_settings_custom_params "not-a-valid-line\n- top_k: 20"
        = [("top_k", JVal.num 20)] :=
  ⟨C7_malformed_skip.1 [] "not-a-valid-line" ["- top_k: 20"] (by decide),
    C7_malformed_skip.2⟩

/-- C7 counterexample: taken literally as input lines, the malformed line
"not-a-valid-line" together with the line "top_k: 20" (no leading dash)
parses to the empty map, not to {top_k: 20}: entry lines must start with
a dash. -/
theorem C7_literal_counterexample :
    ¬ save_settings_custom_params "not-a-valid-line\ntop_k: 20"
        = [("top_k", JVal.num 20)] := by
  decide

/-- C10: a custom-parameter line is considered only if, after stripping,
it starts with "-"; the well-formed-looking line "top_k: 20" without a
dash is ignored, a dash-prefixed line whose value part is not valid JSON
is ignored, and of several accepted lines with the same key the last
occurrence's value is kept. -/
theorem C10_line_filtering :
    (∀ line, py_startswith (py_strip line) "-" = false → parse_custom_line line = none)
    ∧ save_settings_custom_params "top_k: 20" = []
    ∧ save_settings_custom_params "- top_k: oops" = []
    ∧ save_settings_custom_params "- a: 1\n- a: 2" = [("a", JVal.num 2)] := by
  refine ⟨?_, by decide, by decide, by decide⟩
  intro line h
  simp [parse_custom_line, h]

theorem C10_line_filtering_witness :
    parse_custom_line "top_k: 20" = none
    ∧ save_settings_custom_params "- a: 1\n- a: 2" = [("a", JVal.num 2)] :=
  ⟨C10_line_filtering.1 "top_k: 20" (by decide), C10_line_filtering.2.2.2⟩

/-- C1 (code bug): a cancelled session never reaches a failed terminal
event.  The coordinator cancels by QThread.terminate() (lines 557-559 and
636-639), which force-kills the worker thread: the trace of a worker
terminated after consuming one chunk of the stream ["Hel", "lo"] is just
[token "Hel"], and in general a terminated worker's trace contains no
terminal event at all — there is no failed event with a cancellation-kind
error. -/
theorem C1_cancelled_no_terminal :
    worker_terminated [some "Hel", some "lo"] 1 = [Ev.token "Hel"]
    ∧ ∀ (chunks : List (Option String)) (k : Nat),
        (worker_terminated chunks k).countP is_terminal = 0 := by
  constructor
  · decide
  · intro chunks k
    show ((worker_loop (chunks.take k) "").1).countP is_terminal = 0
    rw [worker_loop_spec]
    have h := countP_terminal_tokens ((chunks.take k).filterMap id) []
    simpa using h

/-- C4: a session whose stream ends normally emits its token events and
then exactly one terminal event, finished(fullText), where fullText is the
concatenation, in delivery order, of exactly the emitted token payloads
(the accumulated buffer at stream end). -/
theorem C4_completed_concatenation (chunks : List (Option String)) :
    worker_run chunks none
      = (token_payloads (worker_run chunks none)).map Ev.token
        ++ [Ev.finished (concat_all (token_payloads (worker_run chunks none)))]
    ∧ (worker_run chunks none).countP is_terminal = 1 := by
  have hpay : token_payloads (worker_run chunks none) = chunks.filterMap id := by
    rw [worker_run_none_spec, token_payloads_append_map]
    simp [token_payloads]
  constructor
  · rw [hpay, worker_run_none_spec]
  · rw [worker_run_none_spec, countP_terminal_tokens]
    simp [List.countP_cons, is_terminal]

/-- C5: after N consecutive successful turns from an empty
ConversationHistory, the history has exactly 2N messages alternating
user, assistant, ... in chronological order; a failed session appends no
assistant message, and the signals of a cancelled (terminated) session
never append any message at all. -/
theorem C5_history_shape (clip : Option String)
    (turns : List (String × List (Option String)))
    (h : ∀ t ∈ turns, ¬ py_strip t.1 = "") :
    ((run_success_turns (init_assistant clip) turns).messages.length = 2 * turns.length
      ∧ alternates_user_assistant
          (run_success_turns (init_assistant clip) turns).messages = true)
    ∧ (∀ (s : Assistant) (m : String) (chunks : List (Option String)) (e : String),
        ((run_turn s m chunks (some e)).1.messages.filter fun msg => msg.role == Role.assistant)
          = s.messages.filter fun msg => msg.role == Role.assistant)
    ∧ (∀ (s : Assistant) (chunks : List (Option String)) (k : Nat),
        ((worker_terminated chunks k).foldl deliver s).messages = s.messages) := by
  refine ⟨?_, ?_, ?_⟩
  · have hm := run_success_turns_messages turns h (init_assistant clip)
    simp only [init_assistant, List.nil_append] at hm ⊢
    rw [hm, turns_messages_length, turns_messages_alternates]
    exact ⟨rfl, rfl⟩
  · intro s m chunks e
    by_cases hm : py_strip m = ""
    · rw [run_turn_empty s m hm chunks (some e)]
    · rw [run_turn_failure_state s m hm chunks e]
      simp [List.filter_append]
  · intro s chunks k
    have ht : worker_terminated chunks k = ((chunks.take k).filterMap id).map Ev.token := by
      show (worker_loop (chunks.take k) "").1 = _
      rw [worker_loop_spec]
    rw [ht, foldl_deliver_tokens]

theorem C5_history_shape_witness :
    (run_success_turns (init_assistant none) [("hi", [some "ok"])]).messages.length
        = 2 * ([("hi", [some "ok"])] : List (String × List (Option String))).length
    ∧ alternates_user_assistant
        (run_success_turns (init_assistant none) [("hi", [some "ok"])]).messages = true :=
  (C5_history_shape none [("hi", [some "ok"])] (by decide)).1

/-- C6: when the backend raises during request setup or streaming, the
session's trace ends with exactly one terminal event, error(description);
the coordinator displays "Error: <description>" in the response area, the
history retains exactly the messages committed before the failure (the
just-appended user message, no assistant message), and the coordinator is
Idle afterwards. -/
theorem C6_failure_turn (st : Assistant) (m : String) (hm : ¬ py_strip m = "")
    (chunks : List (Option String)) (e : String) :
    (run_turn st m chunks (some e)).2.getLast? = some (Ev.error e)
    ∧ (run_turn st m chunks (some e)).2.countP is_terminal = 1
    ∧ (run_turn st m chunks (some e)).1.messages
        = st.messages ++ [{ role := Role.user, content := m }]
    ∧ (run_turn st m chunks (some e)).1.response_area = "Error: " ++ e
    ∧ is_idle (run_turn st m chunks (some e)).1 = true := by
  have h2 : (run_turn st m chunks (some e)).2 = worker_run chunks (some e) := by
    simp [run_turn, hm]
  have h1 := run_turn_failure_state st m hm chunks e
  refine ⟨?_, ?_, ?_, ?_, ?_⟩
  · rw [h2, worker_run_some_spec]
    exact List.getLast?_concat _
  · rw [h2, worker_run_some_spec, countP_terminal_tokens]
    simp [List.countP_cons, is_terminal]
  · rw [h1]
  · rw [h1]
  · rw [h1]
    rfl

theorem C6_failure_turn_witness :
    (run_turn (init_assistant none) "X" [] (some "boom")).2.getLast?
        = some (Ev.error "boom")
    ∧ (run_turn (init_assistant none) "X" [] (some "boom")).2.countP is_terminal = 1
    ∧ (run_turn (init_assistant none) "X" [] (some "boom")).1.messages
        = (init_assistant none).messages ++ [{ role := Role.user, content := "X" }]
    ∧ (run_turn (init_assistant none) "X" [] (some "boom")).1.response_area
        = "Error: " ++ "boom"
    ∧ is_idle (run_turn (init_assistant none) "X" [] (some "boom")).1 = true :=
  C6_failure_turn (init_assistant none) "X" (by decide) [] "boom"

/-- C8 (amended): clear_history empties the ConversationHistory, clears
the response area, resets the monitor snapshot to the freshly read source
value ("" when the read fails), leaves the coordinator Idle — a running
session having been cancelled and its handle dropped — and performing it
twice with the same source read yields the same state as performing it
once. -/
theorem C8_clear_state (st : Assistant) (read : Option String) :
    (clear_history st read).messages = []
    ∧ (clear_history st read).response_area = ""
    ∧ (clear_history st read).previous_clipboard = read.getD ""
    ∧ is_idle (clear_history st read) = true
    ∧ clear_history (clear_history st read) read = clear_history st read := by
  cases st with
  | mk ms pc ra cw =>
    cases cw with
    | none => simp [clear_history, is_idle]
    | some b => cases b <;> simp [clear_history, is_idle]

/-- C8 counterexample: after a successful turn the worker slot still
references the finished worker, and clear_history leaves that stale
reference in place (the guard on line 636 only nulls a running worker) —
refuting the claim that clearHistory always leaves the
ActiveSessionHandle cleared. -/
theorem C8_stale_handle_counterexample :
    ¬ (clear_history (run_turn (init_assistant none) "hi" [some "ok"] none).1
        none).current_worker = none := by
  decide

/-- C9 (code bug): OpenAIWorker.__init__ stores the coordinator's live
message list by reference, so a worker that builds its request after a
superseding turn appended user "B" sends a message sequence containing
user "B" — different from the request built from the history as it was at
session start, contradicting the by-value snapshot the claim states. -/
theorem C9_aliased_history :
    ¬ inflight_request_after_append "S" [{ role := Role.user, content := "A" }] "B"
        = all_messages "S" [{ role := Role.user, content := "A" }]
    ∧ ({ role := Role.user, content := "B" } : Message)
        ∈ inflight_request_after_append "S" [{ role := Role.user, content := "A" }] "B" := by
  decide

theorem C2_tick_characterization_witness :
    ((check_clipboard "x" (some "y")).2
        = if (some "y" : Option String).getD "" ≠ "x"
              ∧ ¬ py_strip ((some "y" : Option String).getD "") = ""
          then some ((some "y" : Option String).getD "") else none)
    ∧ ((check_clipboard "x" (some "y")).1
        = if (some "y" : Option String).getD "" ≠ "x"
          then (some "y" : Option String).getD "" else "x") :=
  C2_tick_characterization "x" (some "y")

theorem C4_completed_concatenation_witness :
    worker_run [some "Hel", none, some "lo"] none
      = (token_payloads (worker_run [some "Hel", none, some "lo"] none)).map Ev.token
        ++ [Ev.finished
              (concat_all (token_payloads (worker_run [some "Hel", none, some "lo"] none)))]
    ∧ (worker_run [some "Hel", none, some "lo"] none).countP is_terminal = 1 :=
  C4_completed_concatenation [some "Hel", none, some "lo"]

theorem C8_clear_state_witness :
    (clear_history (init_assistant none) (some "clip")).messages = []
    ∧ (clear_history (init_assistant none) (some "clip")).response_area = ""
    ∧ (clear_history (init_assistant none) (some "clip")).previous_clipboard
        = (some "clip" : Option String).getD ""
    ∧ is_idle (clear_history (init_assistant none) (some "clip")) = true
    ∧ clear_history (clear_history (init_assistant none) (some "clip")) (some "clip")
        = clear_history (init_assistant none) (some "clip") :=
  C8_clear_state (init_assistant none) (some "clip")
